import Mathlib

/-!
Shallow embedding of the nest-circuit-breaker decision engine
(`src/services/circuit-breaker.service.ts`), the Redis store adapter
(`RedisService`) and the decorator key construction
(`UseCircuitBreaker`), together with proofs about the embedded code.

The Redis client itself is external to the repository; its commands are
modelled by their documented semantics, and a batch submitted through
`executePipeline` is applied as one atomic transition, per the
KeyValueStore contract (`executeBatch` executes multiple commands
atomically) under which the engine consumes the store.
-/

deriving instance DecidableEq for Except

namespace CircuitBreaker

/-! ## Characters, decimal numerals, and JavaScript parseInt -/

/-- Is `c` an ASCII decimal digit. -/
def isDigit (c : Char) : Bool :=
  decide (48 ≤ c.toNat) && decide (c.toNat ≤ 57)

/-- JavaScript whitespace characters skipped by `parseInt` (ASCII part). -/
def jsWs (c : Char) : Bool :=
  c == ' ' || c == '\t' || c == '\n' || c == '\r' || c == '\x0b' || c == '\x0c'

/-- Numeric value of a list of decimal digit characters (most significant first). -/
def digitsToNat (l : List Char) : Nat :=
  l.foldl (fun a c => 10 * a + (c.toNat - 48)) 0

/-- Fuel-driven rendering of a natural number as decimal digits (accumulator
holds the already-rendered low-order digits).  Fuel `n + 1` always suffices. -/
def ntdAux (fuel : Nat) (n : Nat) (acc : List Char) : List Char :=
  match fuel with
  | 0 => acc
  | fuel + 1 =>
    if n < 10 then Nat.digitChar (n % 10) :: acc
    else ntdAux fuel (n / 10) (Nat.digitChar (n % 10) :: acc)

/-- Decimal rendering of a natural number, as Redis renders counter values. -/
def natToDecimal (n : Nat) : String :=
  String.mk (ntdAux (n + 1) n [])

/-- Decimal rendering of an integer. -/
def intToDecimal (i : Int) : String :=
  if i < 0 then "-" ++ natToDecimal (-i).toNat else natToDecimal i.toNat

/-- Is `c` an ASCII hexadecimal digit. -/
def isHexDigit (c : Char) : Bool :=
  isDigit c || (decide (97 ≤ c.toNat) && decide (c.toNat ≤ 102))
    || (decide (65 ≤ c.toNat) && decide (c.toNat ≤ 70))

/-- Value of a hexadecimal digit character. -/
def hexDigitVal (c : Char) : Nat :=
  if isDigit c then c.toNat - 48
  else if decide (97 ≤ c.toNat) then c.toNat - 87
  else c.toNat - 55

/-- Numeric value of a list of hexadecimal digit characters. -/
def hexToNat (l : List Char) : Nat :=
  l.foldl (fun a c => 16 * a + hexDigitVal c) 0

/-- Does the character list start with a `0x` / `0X` hexadecimal marker. -/
def startsHex (l : List Char) : Bool :=
  match l with
  | a :: b :: _ => a == '0' && (b == 'x' || b == 'X')
  | _ => false

/-- Decimal branch of JavaScript `parseInt`: longest digit prefix, `none` = NaN. -/
def parseDec (sgn : Int) (l : List Char) : Option Int :=
  let ds := l.takeWhile isDigit
  if ds.isEmpty then none else some (sgn * (digitsToNat ds : Nat))

/-- Hexadecimal branch of JavaScript `parseInt`. -/
def parseHex (sgn : Int) (l : List Char) : Option Int :=
  let hs := l.takeWhile isHexDigit
  if hs.isEmpty then none else some (sgn * (hexToNat hs : Nat))

/-- Model of JavaScript `parseInt(s)` (radix unspecified) on a character list:
skip leading whitespace, optional sign, optional `0x` marker, then the longest
digit prefix; `none` stands for NaN. -/
def parseIntCore (l0 : List Char) : Option Int :=
  match l0.dropWhile jsWs with
  | [] => none
  | c :: rest =>
    let sgn : Int := if c == '-' then -1 else 1
    let rest2 := if c == '-' || c == '+' then rest else c :: rest
    if startsHex rest2 then parseHex sgn (rest2.drop 2) else parseDec sgn rest2

/-- Model of JavaScript `parseInt` on a string; `none` stands for NaN. -/
def parseIntJS (s : String) : Option Int :=
  parseIntCore s.toList

/-- Redis strict integer parse on a character list: the whole list must be an
optionally negated nonempty run of decimal digits. -/
def parseRedisIntCore (l : List Char) : Option Int :=
  match l with
  | [] => none
  | c :: rest =>
    if c == '-' then
      if !rest.isEmpty && rest.all isDigit then some (-(digitsToNat rest : Nat)) else none
    else
      if (c :: rest).all isDigit then some ((digitsToNat (c :: rest) : Nat)) else none

/-- Redis strict integer parse (used by `INCR`). -/
def parseRedisInt (s : String) : Option Int :=
  parseRedisIntCore s.toList

example : natToDecimal 0 = "0" := by decide
example : natToDecimal 137 = "137" := by decide
example : parseIntJS "137" = some 137 := by decide
example : parseIntJS "" = none := by decide
example : parseIntJS "  42abc" = some 42 := by decide
example : parseIntJS "-0x10" = some (-16) := by decide
example : parseIntJS "abc" = none := by decide
example : parseRedisInt "42" = some 42 := by decide
example : parseRedisInt "4 2" = none := by decide
example : parseRedisInt "-7" = some (-7) := by decide

/-! ## The key-value store (Redis), modelled as an association list

`RedisService` (src, unnamed part) wraps an external `ioredis` client.  The
commands used by the engine — `GET`, `DEL`, `INCR`, `EXPIRE` — are modelled by
their documented semantics on a finite map from keys to string values with an
optional time-to-live. -/

/-- One stored entry: the string value and its optional TTL in seconds. -/
structure StoreEntry where
  value : String
  ttl : Option Nat
deriving DecidableEq, Repr

/-- The shared store: an association list from keys to entries. -/
abbrev Store := List (String × StoreEntry)

/-- `GET key` (entry form). -/
def storeGet (st : Store) (k : String) : Option StoreEntry :=
  (st.find? (fun p => p.1 == k)).map (fun p => p.2)

/-- `GET key`: the string value Redis returns, `none` when the key is absent. -/
def storeGetValue (st : Store) (k : String) : Option String :=
  (storeGet st k).map (fun e => e.value)

/-- Remove a key. -/
def storeDel (st : Store) (k : String) : Store :=
  st.filter (fun p => !(p.1 == k))

/-- Bind a key to an entry (replacing any previous binding). -/
def storeSet (st : Store) (k : String) (e : StoreEntry) : Store :=
  (k, e) :: storeDel st k

/-- `INCR key`: creates the key at 1 (with no TTL) when absent; otherwise the
whole stored value must parse as an integer, which is incremented in place
(keeping the TTL).  A non-integer value is a command error. -/
def redisIncr (st : Store) (k : String) : Store × Except String Int :=
  match storeGet st k with
  | none => (storeSet st k ⟨"1", none⟩, Except.ok 1)
  | some e =>
    match parseRedisInt e.value with
    | none => (st, Except.error "ERR value is not an integer or out of range")
    | some n => (storeSet st k ⟨intToDecimal (n + 1), e.ttl⟩, Except.ok (n + 1))

/-- `EXPIRE key seconds`: sets the TTL when the key exists (result 1),
does nothing when it is absent (result 0). -/
def redisExpire (st : Store) (k : String) (seconds : Nat) : Store × Except String Int :=
  match storeGet st k with
  | none => (st, Except.ok 0)
  | some e => (storeSet st k ⟨e.value, some seconds⟩, Except.ok 1)

/-- `DEL key`. -/
def redisDel (st : Store) (k : String) : Store :=
  storeDel st k

/-- The two commands the engine issues inside a pipeline. -/
inductive RedisCmd
  | incr (key : String)
  | expire (key : String) (seconds : Nat)
deriving DecidableEq, Repr

/-- Apply one pipelined command, producing the new store and the command's
`[error | null, result]` pair as `ioredis` reports it. -/
def applyCmd (st : Store) : RedisCmd → Store × (Option String × Option Int)
  | RedisCmd.incr k =>
    match redisIncr st k with
    | (st2, Except.ok v) => (st2, (none, some v))
    | (st2, Except.error e) => (st2, (some e, none))
  | RedisCmd.expire k s =>
    match redisExpire st k s with
    | (st2, Except.ok v) => (st2, (none, some v))
    | (st2, Except.error e) => (st2, (some e, none))

/-- `RedisService.executePipeline`: run the queued commands in order as one
atomic batch and report each command's `(error | null, result)` in issued
order.  Atomicity is the KeyValueStore contract the engine consumes: in the
concurrency model, interleaving between callers happens only at whole-batch
boundaries. -/
def executePipeline (st : Store) (cmds : List RedisCmd) :
    Store × List (Option String × Option Int) :=
  match cmds with
  | [] => (st, [])
  | c :: rest =>
    let (st2, r) := applyCmd st c
    let (st3, rs) := executePipeline st2 rest
    (st3, r :: rs)

/-! ## JavaScript values and errors -/

/-- A JavaScript runtime value, as far as the engine inspects one:
it only ever tests truthiness of the fallback result. -/
inductive JSValue
  | null
  | bool (b : Bool)
  | num (n : Int)
  | str (s : String)
  | obj (id : Nat)
deriving DecidableEq, Repr

/-- JavaScript truthiness. -/
def truthy : JSValue → Bool
  | JSValue.null => false
  | JSValue.bool b => b
  | JSValue.num n => !(n == 0)
  | JSValue.str s => !(s == "")
  | JSValue.obj _ => true

/-- An error raised during `execute`: either a NestJS `HttpException`
carrying a status, or any other error (`instanceof HttpException` fails). -/
inductive JSError
  | httpException (message : String) (status : Int)
  | other (message : String)
deriving DecidableEq, Repr

/-- The error classification in `execute`'s catch block:
`error instanceof HttpException && (error.getStatus() >= 500 || error.getStatus() === 429)`. -/
def tripCheck : JSError → Bool
  | JSError.httpException _ status => decide (500 ≤ status) || status == 429
  | JSError.other _ => false

/-! ## The circuit-breaker service -/

/-- `CircuitBreakerState` enum from the source constants. -/
inductive CircuitBreakerState
  | OPEN
  | CLOSED
deriving DecidableEq, Repr

/-- `HTTP_EXCEPTIONS.SERVICE_UNAVAILABLE` from the source constants. -/
def SERVICE_UNAVAILABLE : Int := 503

/-- The fixed key namespace (`CIRCUIT_BREAKER_KEY_PREFIX` constant, value
`circuit-breaker`). -/
def circuitBreakerNs : String := "circuit-breaker"

/-- `getCircuitBreakerServiceName`: `this.config.serviceName ?? 'service'`. -/
def getCircuitBreakerServiceName (configServiceName : Option String) : String :=
  configServiceName.getD "service"

/-- `getCircuitBreakerKey`: the template literal
`circuit-breaker:serviceName:key`. -/
def getCircuitBreakerKey (configServiceName : Option String) (key : String) : String :=
  circuitBreakerNs ++ ":" ++ getCircuitBreakerServiceName configServiceName ++ ":" ++ key

/-- The state derivation at the heart of `getCircuitBreakerStatus`, on the raw
`GET` result: `if (!count) return CLOSED; if (count && parseInt(count) >=
threshold) return OPEN; return CLOSED;`.  `!count` is true exactly for a null
or empty string, and a NaN comparison is false. -/
def circuitStateOfCount (count : Option String) (threshold : Int) : CircuitBreakerState :=
  match count with
  | none => CircuitBreakerState.CLOSED
  | some s =>
    if s == "" then CircuitBreakerState.CLOSED
    else
      match parseIntJS s with
      | some n => if decide (threshold ≤ n) then CircuitBreakerState.OPEN
                  else CircuitBreakerState.CLOSED
      | none => CircuitBreakerState.CLOSED

/-- `getCircuitBreakerStatus`: read the counter at the derived key and derive
the state. -/
def getCircuitBreakerStatus (configServiceName : Option String) (st : Store)
    (key : String) (threshold : Int) : CircuitBreakerState :=
  circuitStateOfCount (storeGetValue st (getCircuitBreakerKey configServiceName key)) threshold

/-- `handleCircuitBreakerError`: pipeline `INCR key; EXPIRE key
floor(timeout/1000)`, then fail if either reported per-command error slot is
not null (a thrown `Error(...)`; the store effects already applied persist).
Returns the post-pipeline store together with the thrown message, if any. -/
def handleCircuitBreakerError (configServiceName : Option String) (st : Store)
    (key : String) (timeout : Nat) : Store × Option String :=
  let circuitBreakerKey := getCircuitBreakerKey configServiceName key
  let pr := executePipeline st
    [RedisCmd.incr circuitBreakerKey, RedisCmd.expire circuitBreakerKey (timeout / 1000)]
  (pr.1,
    match pr.2[0]? with
    | some (none, _) =>
      match pr.2[1]? with
      | some (none, _) => none
      | _ => some "Failed to set circuit breaker error count expiration"
    | _ => some "Failed to increment circuit breaker error count")

/-- What `execute` hands back: its result (value or thrown error), the
resulting store, and whether the wrapped operation was invoked. -/
structure ExecOutcome where
  result : Except JSError JSValue
  store : Store
  invoked : Bool
deriving DecidableEq, Repr

/-- `CircuitBreakerService.execute`.  The wrapped operation `fn` is external;
its behaviour when invoked is the parameter `fnResult`.  When OPEN the
operation is not invoked: a truthy fallback is returned, otherwise an
`HttpException` 503 is thrown.  When CLOSED the operation runs; on success
the counter is deleted; on a trip-worthy failure the counter is incremented
with a refreshed TTL via one pipeline (whose own thrown `Error`, if any,
replaces the re-raise); every other failure re-raises the original error with
no store access. -/
def execute (configServiceName : Option String) (st : Store)
    (fnResult : Except JSError JSValue) (key : String) (threshold : Int)
    (timeout : Nat) (fallbackResult : JSValue) : ExecOutcome :=
  let circuitBreakerStatus := getCircuitBreakerStatus configServiceName st key threshold
  match circuitBreakerStatus with
  | CircuitBreakerState.OPEN =>
    if truthy fallbackResult then ⟨Except.ok fallbackResult, st, false⟩
    else ⟨Except.error (JSError.httpException
        "Service is unavailable - Circuit Breaker is open" SERVICE_UNAVAILABLE), st, false⟩
  | CircuitBreakerState.CLOSED =>
    match fnResult with
    | Except.ok v =>
      ⟨Except.ok v, redisDel st (getCircuitBreakerKey configServiceName key), true⟩
    | Except.error e =>
      if tripCheck e then
        let (st2, thrown) := handleCircuitBreakerError configServiceName st key timeout
        match thrown with
        | some msg => ⟨Except.error (JSError.other msg), st2, true⟩
        | none => ⟨Except.error e, st2, true⟩
      else ⟨Except.error e, st, true⟩

/-- One recorded trip-worthy failure, as a store transition (the engine's
`handleCircuitBreakerError` call, effects only). -/
def recordFailure (configServiceName : Option String) (key : String) (timeout : Nat)
    (st : Store) : Store :=
  (handleCircuitBreakerError configServiceName st key timeout).1

/-! ## The decorator's key construction (`UseCircuitBreaker`) -/

/-- The decorator's `redisKey`: `circuit-breaker:className:configKey` when
`finalConfig.key` is truthy, else `circuit-breaker:className` (the empty
string is falsy). -/
def decoratorRedisKey (className : String) (configKey : Option String) : String :=
  match configKey with
  | some k =>
    if k == "" then circuitBreakerNs ++ ":" ++ className
    else circuitBreakerNs ++ ":" ++ className ++ ":" ++ k
  | none => circuitBreakerNs ++ ":" ++ className

/-- The key actually used against the store when a call goes through the
decorator: the decorator's `redisKey` is passed to `execute` as `key`, and the
service prepends its own prefix and service name again. -/
def storeKeyViaDecorator (configServiceName : Option String) (className : String)
    (configKey : Option String) : String :=
  getCircuitBreakerKey configServiceName (decoratorRedisKey className configKey)

/-! ## Definitions following the spec's words (for refinement comparisons) -/

/-- Follows the spec's words: an error is trip-worthy iff it carries an
HTTP-like status in the 5xx range (500–599) or equal to 429. -/
def specTripWorthy : JSError → Bool
  | JSError.httpException _ status =>
    (decide (500 ≤ status) && decide (status ≤ 599)) || status == 429
  | JSError.other _ => false

/-- Follows the spec's words: the breaker key is
`prefix + ":" + scopeId + (":" + callKey if callKey else "")`. -/
def specBreakerKey (scopeId : String) (callKey : Option String) : String :=
  match callKey with
  | some k => circuitBreakerNs ++ ":" ++ scopeId ++ ":" ++ k
  | none => circuitBreakerNs ++ ":" ++ scopeId

/-! ## Lemmas: digits and decimal numerals -/

theorem digitChar_isDigit (m : Nat) (h : m < 10) : isDigit (Nat.digitChar m) = true := by
  interval_cases m <;> decide

theorem digitChar_val (m : Nat) (h : m < 10) : (Nat.digitChar m).toNat - 48 = m := by
  interval_cases m <;> decide

theorem isDigit_ne (c d : Char) (h : isDigit c = true) (hd : isDigit d = false) :
    (c == d) = false := by
  rw [beq_eq_false_iff_ne]
  intro he
  subst he
  rw [h] at hd
  cases hd

theorem isDigit_not_ws (c : Char) (h : isDigit c = true) : jsWs c = false := by
  unfold jsWs
  rw [isDigit_ne c ' ' h (by decide), isDigit_ne c '\t' h (by decide),
    isDigit_ne c '\n' h (by decide), isDigit_ne c '\r' h (by decide),
    isDigit_ne c '\x0b' h (by decide), isDigit_ne c '\x0c' h (by decide)]
  rfl

theorem digitsToNat_append_singleton (xs : List Char) (c : Char) :
    digitsToNat (xs ++ [c]) = 10 * digitsToNat xs + (c.toNat - 48) := by
  unfold digitsToNat
  rw [List.foldl_append]
  rfl

theorem ntdAux_append : ∀ (fuel n : Nat) (acc : List Char), n < fuel →
    ntdAux fuel n acc = ntdAux fuel n [] ++ acc := by
  intro fuel
  induction fuel with
  | zero => intro n acc h; omega
  | succ f ih =>
    intro n acc h
    by_cases h10 : n < 10
    · simp [ntdAux, h10]
    · have hf : n / 10 < f := by omega
      rw [ntdAux, if_neg h10, ntdAux, if_neg h10,
        ih (n / 10) (Nat.digitChar (n % 10) :: acc) hf,
        ih (n / 10) [Nat.digitChar (n % 10)] hf]
      simp

theorem ntdAux_ne_nil : ∀ (fuel n : Nat), n < fuel → ntdAux fuel n [] ≠ [] := by
  intro fuel
  induction fuel with
  | zero => intro n h; omega
  | succ f ih =>
    intro n h
    by_cases h10 : n < 10
    · simp [ntdAux, h10]
    · have hf : n / 10 < f := by omega
      rw [ntdAux, if_neg h10, ntdAux_append f (n / 10) _ hf]
      simp

theorem ntdAux_all_digits : ∀ (fuel n : Nat), n < fuel →
    (ntdAux fuel n []).all isDigit = true := by
  intro fuel
  induction fuel with
  | zero => intro n h; omega
  | succ f ih =>
    intro n h
    by_cases h10 : n < 10
    · simp only [ntdAux, if_pos h10, List.all_cons, List.all_nil, Bool.and_true]
      exact digitChar_isDigit _ (Nat.mod_lt _ (by omega))
    · have hf : n / 10 < f := by omega
      rw [ntdAux, if_neg h10, ntdAux_append f (n / 10) _ hf, List.all_append]
      rw [ih (n / 10) hf]
      simp only [List.all_cons, List.all_nil, Bool.and_true, Bool.true_and]
      exact digitChar_isDigit _ (Nat.mod_lt _ (by omega))

theorem ntdAux_val : ∀ (fuel n : Nat), n < fuel →
    digitsToNat (ntdAux fuel n []) = n := by
  intro fuel
  induction fuel with
  | zero => intro n h; omega
  | succ f ih =>
    intro n h
    by_cases h10 : n < 10
    · rw [ntdAux, if_pos h10]
      show digitsToNat ([] ++ [Nat.digitChar (n % 10)]) = n
      rw [digitsToNat_append_singleton, digitChar_val _ (Nat.mod_lt _ (by omega))]
      simp [digitsToNat]
      omega
    · have hf : n / 10 < f := by omega
      rw [ntdAux, if_neg h10, ntdAux_append f (n / 10) _ hf,
        digitsToNat_append_singleton, ih (n / 10) hf,
        digitChar_val _ (Nat.mod_lt _ (by omega))]
      omega

theorem natToDecimal_toList (n : Nat) : (natToDecimal n).toList = ntdAux (n + 1) n [] := rfl

theorem natToDecimal_all_digits (n : Nat) : (natToDecimal n).toList.all isDigit = true :=
  ntdAux_all_digits (n + 1) n (by omega)

theorem natToDecimal_toList_ne_nil (n : Nat) : (natToDecimal n).toList ≠ [] :=
  ntdAux_ne_nil (n + 1) n (by omega)

theorem natToDecimal_val (n : Nat) : digitsToNat (natToDecimal n).toList = n :=
  ntdAux_val (n + 1) n (by omega)

theorem natToDecimal_ne_empty (n : Nat) : natToDecimal n ≠ "" := by
  intro h
  exact natToDecimal_toList_ne_nil n (congrArg String.toList h)

theorem intToDecimal_ofNat (n : Nat) : intToDecimal (n : Int) = natToDecimal n := by
  rw [intToDecimal, if_neg (by omega)]
  simp

/-! ## Lemmas: parsing all-digit strings -/

theorem takeWhile_of_all {p : Char → Bool} :
    ∀ {l : List Char}, l.all p = true → l.takeWhile p = l := by
  intro l
  induction l with
  | nil => intro _; rfl
  | cons a t ih =>
    intro h
    rw [List.all_cons, Bool.and_eq_true] at h
    simp [List.takeWhile_cons, h.1, ih h.2]

theorem parseDec_all_digits (sgn : Int) (l : List Char) (hne : l ≠ [])
    (hall : l.all isDigit = true) :
    parseDec sgn l = some (sgn * (digitsToNat l : Nat)) := by
  unfold parseDec
  rw [takeWhile_of_all hall, if_neg (by simp [List.isEmpty_iff, hne])]

theorem startsHex_digits (l : List Char) (hall : l.all isDigit = true) :
    startsHex l = false := by
  match l with
  | [] => rfl
  | [a] => rfl
  | a :: b :: t =>
    rw [List.all_cons, List.all_cons, Bool.and_eq_true, Bool.and_eq_true] at hall
    show (a == '0' && (b == 'x' || b == 'X')) = false
    rw [isDigit_ne b 'x' hall.2.1 (by decide), isDigit_ne b 'X' hall.2.1 (by decide)]
    simp

theorem parseIntCore_all_digits (l : List Char) (hne : l ≠ [])
    (hall : l.all isDigit = true) :
    parseIntCore l = some ((digitsToNat l : Nat) : Int) := by
  obtain ⟨c, rest, rfl⟩ := List.exists_cons_of_ne_nil hne
  have hc : isDigit c = true := by
    rw [List.all_cons, Bool.and_eq_true] at hall
    exact hall.1
  unfold parseIntCore
  rw [List.dropWhile_cons, if_neg (by rw [isDigit_not_ws c hc]; exact Bool.false_ne_true)]
  show (if startsHex (if (c == '-' || c == '+') = true then rest else c :: rest) = true
      then parseHex (if (c == '-') = true then -1 else 1)
        ((if (c == '-' || c == '+') = true then rest else c :: rest).drop 2)
      else parseDec (if (c == '-') = true then -1 else 1)
        (if (c == '-' || c == '+') = true then rest else c :: rest)) = _
  rw [isDigit_ne c '-' hc (by decide), isDigit_ne c '+' hc (by decide)]
  simp only [Bool.or_self, if_neg Bool.false_ne_true]
  rw [if_neg (by rw [startsHex_digits _ hall]; exact Bool.false_ne_true)]
  rw [parseDec_all_digits _ _ hne hall, one_mul]

theorem parseIntJS_natToDecimal (n : Nat) : parseIntJS (natToDecimal n) = some (n : Int) := by
  rw [parseIntJS, show (natToDecimal n).toList = ntdAux (n + 1) n [] from rfl,
    ← natToDecimal_toList,
    parseIntCore_all_digits _ (natToDecimal_toList_ne_nil n) (natToDecimal_all_digits n),
    natToDecimal_val]

theorem parseRedisIntCore_all_digits (l : List Char) (hne : l ≠ [])
    (hall : l.all isDigit = true) :
    parseRedisIntCore l = some ((digitsToNat l : Nat) : Int) := by
  obtain ⟨c, rest, rfl⟩ := List.exists_cons_of_ne_nil hne
  have hc : isDigit c = true := by
    rw [List.all_cons, Bool.and_eq_true] at hall
    exact hall.1
  rw [parseRedisIntCore,
    if_neg (by rw [isDigit_ne c '-' hc (by decide)]; exact Bool.false_ne_true),
    if_pos hall]

theorem parseRedisInt_natToDecimal (n : Nat) :
    parseRedisInt (natToDecimal n) = some ((n : Nat) : Int) := by
  rw [parseRedisInt,
    parseRedisIntCore_all_digits _ (natToDecimal_toList_ne_nil n) (natToDecimal_all_digits n),
    natToDecimal_val]

/-! ## Lemmas: the store -/

theorem storeGet_set_self (st : Store) (k : String) (e : StoreEntry) :
    storeGet (storeSet st k e) k = some e := by
  simp [storeGet, storeSet, List.find?]

theorem storeGet_del_self (st : Store) (k : String) :
    storeGet (storeDel st k) k = none := by
  induction st with
  | nil => rfl
  | cons p t ih =>
    by_cases h : (p.1 == k) = true
    · simp only [storeDel, List.filter, h, Bool.not_true]
      exact ih
    · rw [Bool.not_eq_true] at h
      simp only [storeDel, storeGet, List.filter, List.find?, h, Bool.not_false] at ih ⊢
      exact ih

theorem strAppend_assoc (a b c : String) : a ++ b ++ c = a ++ (b ++ c) := by
  cases a with
  | mk la =>
    cases b with
    | mk lb =>
      cases c with
      | mk lc =>
        show String.mk (la ++ lb ++ lc) = String.mk (la ++ (lb ++ lc))
        rw [List.append_assoc]

theorem storeSet_storeSet (st : Store) (k : String) (a b : StoreEntry) :
    storeSet (storeSet st k a) k b = storeSet st k b := by
  simp [storeSet, storeDel, List.filter_filter]

theorem intToDecimal_add_one (c : Nat) :
    intToDecimal ((c : Int) + 1) = natToDecimal (c + 1) := by
  rw [show ((c : Int) + 1) = ((c + 1 : Nat) : Int) by push_cast; ring, intToDecimal_ofNat]

/-! ## Lemmas: the engine's failure-recording pipeline -/

/-- The `INCR`-then-`EXPIRE` batch on a key whose counter is absent (`c = 0`)
or holds the numeral of `c`: both commands succeed and the resulting store
binds the key to the numeral of `c + 1` with the fresh TTL. -/
theorem pipeline_incr_expire (st : Store) (k : String) (sec : Nat) (c : Nat)
    (hcnt : (storeGet st k = none ∧ c = 0)
      ∨ ∃ ttl0, storeGet st k = some ⟨natToDecimal c, ttl0⟩) :
    executePipeline st [RedisCmd.incr k, RedisCmd.expire k sec]
      = (storeSet st k ⟨natToDecimal (c + 1), some sec⟩,
         [(none, some ((c : Int) + 1)), (none, some 1)]) := by
  rcases hcnt with ⟨hget, rfl⟩ | ⟨ttl0, hget⟩
  · simp [executePipeline, applyCmd, redisIncr, hget, redisExpire,
      storeGet_set_self, storeSet_storeSet]
    rw [show natToDecimal 1 = "1" from by decide]
  · simp [executePipeline, applyCmd, redisIncr, hget, parseRedisInt_natToDecimal,
      redisExpire, storeGet_set_self, storeSet_storeSet, intToDecimal_add_one]

/-- With the counter absent or a stored numeral, `handleCircuitBreakerError`
throws nothing and its store effect is exactly the batch's effect. -/
theorem handle_ok (configServiceName : Option String) (st : Store) (key : String)
    (timeout : Nat) (c : Nat)
    (hcnt : (storeGet st (getCircuitBreakerKey configServiceName key) = none ∧ c = 0)
      ∨ ∃ ttl0, storeGet st (getCircuitBreakerKey configServiceName key)
          = some ⟨natToDecimal c, ttl0⟩) :
    handleCircuitBreakerError configServiceName st key timeout
      = (storeSet st (getCircuitBreakerKey configServiceName key)
          ⟨natToDecimal (c + 1), some (timeout / 1000)⟩, none) := by
  have hp := pipeline_incr_expire st (getCircuitBreakerKey configServiceName key)
    (timeout / 1000) c hcnt
  simp [handleCircuitBreakerError, hp]

example : getCircuitBreakerKey (some "svc") "op" = "circuit-breaker:svc:op" := by decide
example : circuitStateOfCount (some "3") 3 = CircuitBreakerState.OPEN := by decide
example : circuitStateOfCount (some "abc") 3 = CircuitBreakerState.CLOSED := by decide
example : circuitStateOfCount (some "0") 3 = CircuitBreakerState.CLOSED := by decide
example :
    execute (some "svc") [] (Except.error (JSError.httpException "boom" 500)) "op" 3 10000
      JSValue.null
    = ⟨Except.error (JSError.httpException "boom" 500),
       [("circuit-breaker:svc:op", ⟨"1", some 10⟩)], true⟩ := by decide
example :
    execute (some "svc") [("circuit-breaker:svc:op", ⟨"3", some 10⟩)]
      (Except.ok (JSValue.obj 0)) "op" 3 10000 JSValue.null
    = ⟨Except.error (JSError.httpException
        "Service is unavailable - Circuit Breaker is open" 503),
       [("circuit-breaker:svc:op", ⟨"3", some 10⟩)], false⟩ := by decide

/-! ## Claim theorems -/

/-- Claim C1: for every stored counter value `c` and positive threshold `t`,
the derived circuit state is OPEN iff the counter is present with numeric
value at least `t`, and CLOSED iff the counter is absent or its value is
below `t`. -/
theorem claim_C1_state_from_counter (c : Nat) (t : Int) (_ht : 0 < t) :
    (circuitStateOfCount (some (natToDecimal c)) t = CircuitBreakerState.OPEN
      ↔ t ≤ (c : Int))
    ∧ (circuitStateOfCount (some (natToDecimal c)) t = CircuitBreakerState.CLOSED
      ↔ (c : Int) < t)
    ∧ circuitStateOfCount none t = CircuitBreakerState.CLOSED := by
  have hne : (natToDecimal c == "") = false :=
    beq_eq_false_iff_ne.mpr (natToDecimal_ne_empty c)
  have hstate : circuitStateOfCount (some (natToDecimal c)) t
      = if t ≤ (c : Int) then CircuitBreakerState.OPEN else CircuitBreakerState.CLOSED := by
    simp [circuitStateOfCount, hne, parseIntJS_natToDecimal]
  rw [hstate]
  refine ⟨?_, ?_, rfl⟩ <;> by_cases hle : t ≤ (c : Int) <;> (simp [hle]; try omega)

/-- Claim C1 witness: instantiated at counter 3 and threshold 2. -/
theorem claim_C1_witness :
    (0 : Int) < 2
    ∧ ((circuitStateOfCount (some (natToDecimal 3)) 2 = CircuitBreakerState.OPEN
        ↔ (2 : Int) ≤ (3 : Nat))
      ∧ (circuitStateOfCount (some (natToDecimal 3)) 2 = CircuitBreakerState.CLOSED
        ↔ ((3 : Nat) : Int) < 2)
      ∧ circuitStateOfCount none 2 = CircuitBreakerState.CLOSED) :=
  ⟨by decide, claim_C1_state_from_counter 3 2 (by decide)⟩

/-- Claim C2 counterexample: with the circuit OPEN and the supplied (non-null)
fallback `0`, `execute` does not return the fallback — the truthiness test
rejects it and the circuit-open `HttpException` 503 is thrown instead. -/
theorem claim_C2_counterexample :
    JSValue.num 0 ≠ JSValue.null
    ∧ getCircuitBreakerStatus (some "svc")
        [("circuit-breaker:svc:op", ⟨"3", some 10⟩)] "op" 3 = CircuitBreakerState.OPEN
    ∧ (execute (some "svc") [("circuit-breaker:svc:op", ⟨"3", some 10⟩)]
        (Except.ok (JSValue.obj 0)) "op" 3 10000 (JSValue.num 0)).result
      = Except.error (JSError.httpException
          "Service is unavailable - Circuit Breaker is open" 503) := by decide

/-- Claim C2 (amended): when the derived state is OPEN, a *truthy* supplied
fallback is returned as is; with an absent or falsy fallback `execute` fails
with the circuit-open `HttpException` 503.  In both cases the wrapped
operation is not invoked and the store is untouched. -/
theorem claim_C2_amended (cfg : Option String) (st : Store)
    (fnRes : Except JSError JSValue) (key : String) (t : Int) (timeout : Nat)
    (fb : JSValue)
    (hopen : getCircuitBreakerStatus cfg st key t = CircuitBreakerState.OPEN) :
    (truthy fb = true →
      execute cfg st fnRes key t timeout fb = ⟨Except.ok fb, st, false⟩)
    ∧ (truthy fb = false →
      execute cfg st fnRes key t timeout fb
        = ⟨Except.error (JSError.httpException
            "Service is unavailable - Circuit Breaker is open" SERVICE_UNAVAILABLE),
           st, false⟩) := by
  constructor <;> intro hfb <;> simp [execute, hopen, hfb]

/-- Claim C2 witness: OPEN circuit with a truthy object fallback. -/
theorem claim_C2_witness :
    getCircuitBreakerStatus (some "svc")
      [("circuit-breaker:svc:op", ⟨"3", some 10⟩)] "op" 3 = CircuitBreakerState.OPEN
    ∧ ((truthy (JSValue.obj 7) = true →
        execute (some "svc") [("circuit-breaker:svc:op", ⟨"3", some 10⟩)]
          (Except.ok (JSValue.obj 0)) "op" 3 10000 (JSValue.obj 7)
          = ⟨Except.ok (JSValue.obj 7),
             [("circuit-breaker:svc:op", ⟨"3", some 10⟩)], false⟩)
      ∧ (truthy (JSValue.obj 7) = false →
        execute (some "svc") [("circuit-breaker:svc:op", ⟨"3", some 10⟩)]
          (Except.ok (JSValue.obj 0)) "op" 3 10000 (JSValue.obj 7)
          = ⟨Except.error (JSError.httpException
              "Service is unavailable - Circuit Breaker is open" SERVICE_UNAVAILABLE),
             [("circuit-breaker:svc:op", ⟨"3", some 10⟩)], false⟩)) :=
  ⟨by decide, claim_C2_amended (some "svc")
    [("circuit-breaker:svc:op", ⟨"3", some 10⟩)]
    (Except.ok (JSValue.obj 0)) "op" 3 10000 (JSValue.obj 7) (by decide)⟩

/-- Claim C3 counterexample: an `HttpException` with status 600 is classified
trip-worthy by the code (`status >= 500`), yet 600 is not in the 5xx range and
not 429, so the claim's iff fails there. -/
theorem claim_C3_counterexample :
    tripCheck (JSError.httpException "Upstream failure" 600) = true
    ∧ specTripWorthy (JSError.httpException "Upstream failure" 600) = false := by decide

/-- Claim C3 (amended): an error is classified trip-worthy iff it is an
`HttpException` whose status is at least 500 or equal to 429; every other
error (any other status, or a non-HTTP error) is not trip-worthy. -/
theorem claim_C3_amended (e : JSError) :
    tripCheck e = true
      ↔ ∃ m s, e = JSError.httpException m s ∧ (500 ≤ s ∨ s = 429) := by
  cases e with
  | httpException m s =>
    simp only [tripCheck, Bool.or_eq_true, decide_eq_true_eq, beq_iff_eq,
      JSError.httpException.injEq]
    constructor
    · intro h
      exact ⟨m, s, ⟨rfl, rfl⟩, h⟩
    · rintro ⟨m2, s2, ⟨hm, hs⟩, h⟩
      rw [hs]
      exact h
  | other m => simp [tripCheck]

/-- Claim C4: a trip-worthy failure recorded while CLOSED drives the store
through exactly the one `INCR`+`EXPIRE` batch: the counter at the key is
incremented and its TTL set to `floor(timeout / 1000)` seconds in that single
atomic transition, and the original error is re-raised. -/
theorem claim_C4_record_failure (cfg : Option String) (st : Store) (key : String)
    (t : Int) (timeout : Nat) (e : JSError) (fb : JSValue) (c : Nat)
    (hclosed : getCircuitBreakerStatus cfg st key t = CircuitBreakerState.CLOSED)
    (htrip : tripCheck e = true)
    (hcnt : (storeGet st (getCircuitBreakerKey cfg key) = none ∧ c = 0)
      ∨ ∃ ttl0, storeGet st (getCircuitBreakerKey cfg key)
          = some ⟨natToDecimal c, ttl0⟩) :
    execute cfg st (Except.error e) key t timeout fb
      = ⟨Except.error e,
         storeSet st (getCircuitBreakerKey cfg key)
           ⟨natToDecimal (c + 1), some (timeout / 1000)⟩, true⟩
    ∧ (execute cfg st (Except.error e) key t timeout fb).store
        = (executePipeline st [RedisCmd.incr (getCircuitBreakerKey cfg key),
            RedisCmd.expire (getCircuitBreakerKey cfg key) (timeout / 1000)]).1
    ∧ storeGet (execute cfg st (Except.error e) key t timeout fb).store
        (getCircuitBreakerKey cfg key)
      = some ⟨natToDecimal (c + 1), some (timeout / 1000)⟩ := by
  have hh := handle_ok cfg st key timeout c hcnt
  have hp := pipeline_incr_expire st (getCircuitBreakerKey cfg key) (timeout / 1000) c hcnt
  have hex : execute cfg st (Except.error e) key t timeout fb
      = ⟨Except.error e,
         storeSet st (getCircuitBreakerKey cfg key)
           ⟨natToDecimal (c + 1), some (timeout / 1000)⟩, true⟩ := by
    simp [execute, hclosed, htrip, hh]
  refine ⟨hex, ?_, ?_⟩
  · rw [hex, hp]
  · rw [hex]
    exact storeGet_set_self st (getCircuitBreakerKey cfg key) _

/-- Claim C4 witness: empty store, threshold 3, a 429 failure. -/
theorem claim_C4_witness :
    getCircuitBreakerStatus (some "svc") [] "op" 3 = CircuitBreakerState.CLOSED
    ∧ tripCheck (JSError.httpException "Too Many Requests" 429) = true
    ∧ ((storeGet ([] : Store) (getCircuitBreakerKey (some "svc") "op") = none ∧ 0 = 0)
      ∨ ∃ ttl0, storeGet ([] : Store) (getCircuitBreakerKey (some "svc") "op")
          = some ⟨natToDecimal 0, ttl0⟩)
    ∧ (execute (some "svc") [] (Except.error (JSError.httpException "Too Many Requests" 429))
        "op" 3 10000 JSValue.null
      = ⟨Except.error (JSError.httpException "Too Many Requests" 429),
         storeSet [] (getCircuitBreakerKey (some "svc") "op")
           ⟨natToDecimal (0 + 1), some (10000 / 1000)⟩, true⟩
      ∧ (execute (some "svc") [] (Except.error (JSError.httpException "Too Many Requests" 429))
          "op" 3 10000 JSValue.null).store
        = (executePipeline [] [RedisCmd.incr (getCircuitBreakerKey (some "svc") "op"),
            RedisCmd.expire (getCircuitBreakerKey (some "svc") "op") (10000 / 1000)]).1
      ∧ storeGet (execute (some "svc") []
            (Except.error (JSError.httpException "Too Many Requests" 429))
            "op" 3 10000 JSValue.null).store (getCircuitBreakerKey (some "svc") "op")
        = some ⟨natToDecimal (0 + 1), some (10000 / 1000)⟩) :=
  ⟨by decide, by decide, Or.inl (by decide),
    claim_C4_record_failure (some "svc") [] "op" 3 10000
      (JSError.httpException "Too Many Requests" 429) JSValue.null 0
      (by decide) (by decide) (Or.inl (by decide))⟩

/-- Claim C5: a successful call while CLOSED deletes the counter at the key
and returns the operation's result; the immediately following status check
reports CLOSED with the counter absent (count 0). -/
theorem claim_C5_success_clears (cfg : Option String) (st : Store) (key : String)
    (t : Int) (timeout : Nat) (fb : JSValue) (v : JSValue)
    (hclosed : getCircuitBreakerStatus cfg st key t = CircuitBreakerState.CLOSED) :
    execute cfg st (Except.ok v) key t timeout fb
      = ⟨Except.ok v, storeDel st (getCircuitBreakerKey cfg key), true⟩
    ∧ storeGetValue (storeDel st (getCircuitBreakerKey cfg key))
        (getCircuitBreakerKey cfg key) = none
    ∧ getCircuitBreakerStatus cfg (storeDel st (getCircuitBreakerKey cfg key)) key t
      = CircuitBreakerState.CLOSED := by
  refine ⟨by simp [execute, hclosed, redisDel], ?_, ?_⟩
  · simp [storeGetValue, storeGet_del_self]
  · simp [getCircuitBreakerStatus, storeGetValue, storeGet_del_self, circuitStateOfCount]

/-- Claim C5 witness: a store holding two prior failures below threshold. -/
theorem claim_C5_witness :
    getCircuitBreakerStatus (some "svc")
      [("circuit-breaker:svc:op", ⟨"2", some 5⟩)] "op" 3 = CircuitBreakerState.CLOSED
    ∧ (execute (some "svc") [("circuit-breaker:svc:op", ⟨"2", some 5⟩)]
        (Except.ok (JSValue.str "ok")) "op" 3 10000 JSValue.null
      = ⟨Except.ok (JSValue.str "ok"),
         storeDel [("circuit-breaker:svc:op", ⟨"2", some 5⟩)]
           (getCircuitBreakerKey (some "svc") "op"), true⟩
      ∧ storeGetValue (storeDel [("circuit-breaker:svc:op", ⟨"2", some 5⟩)]
          (getCircuitBreakerKey (some "svc") "op"))
          (getCircuitBreakerKey (some "svc") "op") = none
      ∧ getCircuitBreakerStatus (some "svc")
          (storeDel [("circuit-breaker:svc:op", ⟨"2", some 5⟩)]
            (getCircuitBreakerKey (some "svc") "op")) "op" 3
        = CircuitBreakerState.CLOSED) :=
  ⟨by decide, claim_C5_success_clears (some "svc")
    [("circuit-breaker:svc:op", ⟨"2", some 5⟩)] "op" 3 10000 JSValue.null
    (JSValue.str "ok") (by decide)⟩

/-- Claim C6: a failing call while CLOSED re-raises exactly the original
error, whether or not it was trip-worthy (the counter at the key being absent
or a stored numeral, as the engine itself maintains it). -/
theorem claim_C6_reraise (cfg : Option String) (st : Store) (key : String)
    (t : Int) (timeout : Nat) (fb : JSValue) (e : JSError) (c : Nat)
    (hclosed : getCircuitBreakerStatus cfg st key t = CircuitBreakerState.CLOSED)
    (hcnt : (storeGet st (getCircuitBreakerKey cfg key) = none ∧ c = 0)
      ∨ ∃ ttl0, storeGet st (getCircuitBreakerKey cfg key)
          = some ⟨natToDecimal c, ttl0⟩) :
    (execute cfg st (Except.error e) key t timeout fb).result = Except.error e
    ∧ (execute cfg st (Except.error e) key t timeout fb).invoked = true := by
  cases htrip : tripCheck e with
  | false => simp [execute, hclosed, htrip]
  | true =>
    have hh := handle_ok cfg st key timeout c hcnt
    simp [execute, hclosed, htrip, hh]

/-- Claim C6 witness: CLOSED store with two failures, a 500 failure. -/
theorem claim_C6_witness :
    getCircuitBreakerStatus (some "svc")
      [("circuit-breaker:svc:op", ⟨"2", some 5⟩)] "op" 3 = CircuitBreakerState.CLOSED
    ∧ ((storeGet [("circuit-breaker:svc:op", ⟨"2", some 5⟩)]
          (getCircuitBreakerKey (some "svc") "op") = none ∧ 2 = 0)
      ∨ ∃ ttl0, storeGet [("circuit-breaker:svc:op", ⟨"2", some 5⟩)]
          (getCircuitBreakerKey (some "svc") "op") = some ⟨natToDecimal 2, ttl0⟩)
    ∧ ((execute (some "svc") [("circuit-breaker:svc:op", ⟨"2", some 5⟩)]
        (Except.error (JSError.httpException "Internal Server Error" 500))
        "op" 3 10000 JSValue.null).result
      = Except.error (JSError.httpException "Internal Server Error" 500)
      ∧ (execute (some "svc") [("circuit-breaker:svc:op", ⟨"2", some 5⟩)]
          (Except.error (JSError.httpException "Internal Server Error" 500))
          "op" 3 10000 JSValue.null).invoked = true) :=
  ⟨by decide, Or.inr ⟨some 5, by decide⟩,
    claim_C6_reraise (some "svc") [("circuit-breaker:svc:op", ⟨"2", some 5⟩)]
      "op" 3 10000 JSValue.null (JSError.httpException "Internal Server Error" 500) 2
      (by decide) (Or.inr ⟨some 5, by decide⟩)⟩

/-- Claim C7: a non-trip-worthy failure while CLOSED re-raises the original
error and leaves the store completely unchanged. -/
theorem claim_C7_no_mutation (cfg : Option String) (st : Store) (key : String)
    (t : Int) (timeout : Nat) (fb : JSValue) (e : JSError)
    (hclosed : getCircuitBreakerStatus cfg st key t = CircuitBreakerState.CLOSED)
    (hnontrip : tripCheck e = false) :
    execute cfg st (Except.error e) key t timeout fb = ⟨Except.error e, st, true⟩ := by
  simp [execute, hclosed, hnontrip]

/-- Claim C7 witness: a 404 failure on a store holding one prior failure. -/
theorem claim_C7_witness :
    getCircuitBreakerStatus (some "svc")
      [("circuit-breaker:svc:op", ⟨"1", some 5⟩)] "op" 3 = CircuitBreakerState.CLOSED
    ∧ tripCheck (JSError.httpException "Not Found" 404) = false
    ∧ execute (some "svc") [("circuit-breaker:svc:op", ⟨"1", some 5⟩)]
        (Except.error (JSError.httpException "Not Found" 404)) "op" 3 10000 JSValue.null
      = ⟨Except.error (JSError.httpException "Not Found" 404),
         [("circuit-breaker:svc:op", ⟨"1", some 5⟩)], true⟩ :=
  ⟨by decide, by decide,
    claim_C7_no_mutation (some "svc") [("circuit-breaker:svc:op", ⟨"1", some 5⟩)]
      "op" 3 10000 JSValue.null (JSError.httpException "Not Found" 404)
      (by decide) (by decide)⟩

/-- Claim C8 counterexample: through the decorator path with module service
name `svc`, class `MyService` and no per-operation key, the key used against
the store is the double-prefixed `circuit-breaker:svc:circuit-breaker:MyService`,
which matches neither `prefix:scopeId` reading of the claimed formula. -/
theorem claim_C8_counterexample :
    storeKeyViaDecorator (some "svc") "MyService" none
      = "circuit-breaker:svc:circuit-breaker:MyService"
    ∧ storeKeyViaDecorator (some "svc") "MyService" none ≠ specBreakerKey "MyService" none
    ∧ storeKeyViaDecorator (some "svc") "MyService" none ≠ specBreakerKey "svc" none := by
  decide

/-- Claim C8 (amended): the decorator builds `prefix:className` plus
`:callKey` when a truthy per-operation key is given, the service then
prepends `prefix:serviceName:` again, so the key used against the store is
`prefix:serviceName:prefix:className(:callKey)` — deterministic in the
configuration. -/
theorem claim_C8_amended (svc className : String) (configKey : Option String) :
    storeKeyViaDecorator (some svc) className configKey
      = circuitBreakerNs ++ ":" ++ svc ++ ":" ++ circuitBreakerNs ++ ":"
        ++ (match configKey with
            | some k => if k == "" then className else className ++ ":" ++ k
            | none => className) := by
  cases configKey with
  | none =>
    simp [storeKeyViaDecorator, getCircuitBreakerKey, decoratorRedisKey,
      getCircuitBreakerServiceName, strAppend_assoc]
  | some k =>
    by_cases hk : (k == "") = true
    · simp [storeKeyViaDecorator, getCircuitBreakerKey, decoratorRedisKey,
        getCircuitBreakerServiceName, hk, strAppend_assoc]
    · rw [Bool.not_eq_true] at hk
      simp [storeKeyViaDecorator, getCircuitBreakerKey, decoratorRedisKey,
        getCircuitBreakerServiceName, hk, strAppend_assoc]

/-- Counter growth under iterated failure recording: starting from a stored
numeral `c`, `n` further recorded failures leave the numeral `c + n`. -/
theorem iterate_recordFailure (cfg : Option String) (key : String) (timeout : Nat) :
    ∀ (n : Nat) (st : Store) (c : Nat) (ttl0 : Option Nat),
      storeGet st (getCircuitBreakerKey cfg key) = some ⟨natToDecimal c, ttl0⟩ →
      storeGetValue ((recordFailure cfg key timeout)^[n] st)
        (getCircuitBreakerKey cfg key) = some (natToDecimal (c + n)) := by
  intro n
  induction n with
  | zero => intro st c ttl0 hget; simp [storeGetValue, hget]
  | succ m ih =>
    intro st c ttl0 hget
    rw [Function.iterate_succ_apply]
    have hstep : recordFailure cfg key timeout st
        = storeSet st (getCircuitBreakerKey cfg key)
            ⟨natToDecimal (c + 1), some (timeout / 1000)⟩ := by
      unfold recordFailure
      rw [handle_ok cfg st key timeout c (Or.inr ⟨ttl0, hget⟩)]
    rw [hstep]
    have hnext := ih _ (c + 1) (some (timeout / 1000))
      (storeGet_set_self st (getCircuitBreakerKey cfg key) _)
    rw [show c + 1 + m = c + (m + 1) from by omega] at hnext
    exact hnext

/-- Claim C9: starting with the counter absent, `N ≥ 1` recorded trip-worthy
failures against the same key — each an atomic `INCR`+`EXPIRE` batch, so any
concurrent interleaving is some serialization of the `N` identical batches —
leave the counter at exactly the numeral `N`: no increment is lost. -/
theorem claim_C9_no_lost_updates (cfg : Option String) (key : String) (timeout : Nat)
    (N : Nat) (st : Store)
    (habs : storeGet st (getCircuitBreakerKey cfg key) = none) (hN : 0 < N) :
    storeGetValue ((recordFailure cfg key timeout)^[N] st)
      (getCircuitBreakerKey cfg key) = some (natToDecimal N) := by
  obtain ⟨m, rfl⟩ : ∃ m, N = m + 1 := ⟨N - 1, by omega⟩
  rw [Function.iterate_succ_apply]
  have hstep : recordFailure cfg key timeout st
      = storeSet st (getCircuitBreakerKey cfg key)
          ⟨natToDecimal 1, some (timeout / 1000)⟩ := by
    unfold recordFailure
    rw [handle_ok cfg st key timeout 0 (Or.inl ⟨habs, rfl⟩)]
  rw [hstep]
  have hrest := iterate_recordFailure cfg key timeout m _ 1 (some (timeout / 1000))
    (storeGet_set_self st (getCircuitBreakerKey cfg key) _)
  rw [show 1 + m = m + 1 from by omega] at hrest
  exact hrest

/-- Claim C9 witness: three recorded failures from an empty store. -/
theorem claim_C9_witness :
    storeGet ([] : Store) (getCircuitBreakerKey (some "svc") "op") = none
    ∧ 0 < 3
    ∧ storeGetValue ((recordFailure (some "svc") "op" 10000)^[3] [])
        (getCircuitBreakerKey (some "svc") "op") = some (natToDecimal 3) :=
  ⟨by decide, by decide,
    claim_C9_no_lost_updates (some "svc") "op" 10000 3 [] (by decide) (by decide)⟩

/-- Claim C10: deriving the circuit state is total — the empty string, the
string `0` and any string that does not parse as a number all yield CLOSED,
and OPEN arises exactly when the stored value parses to at least the
threshold. -/
theorem claim_C10_total_state (s : String) (t : Int) (ht : 0 < t) :
    circuitStateOfCount (some "") t = CircuitBreakerState.CLOSED
    ∧ circuitStateOfCount (some "0") t = CircuitBreakerState.CLOSED
    ∧ (parseIntJS s = none → circuitStateOfCount (some s) t = CircuitBreakerState.CLOSED)
    ∧ (circuitStateOfCount (some s) t = CircuitBreakerState.OPEN
        ↔ ∃ n, parseIntJS s = some n ∧ t ≤ n) := by
  refine ⟨rfl, ?_, ?_, ?_⟩
  · have h0 : parseIntJS "0" = some 0 := by decide
    simp [circuitStateOfCount, h0]
    omega
  · intro hp
    by_cases hs : (s == "") = true
    · simp [circuitStateOfCount, hs]
    · rw [Bool.not_eq_true] at hs
      simp [circuitStateOfCount, hs, hp]
  · by_cases hs : (s == "") = true
    · have hs' : s = "" := by simpa using hs
      subst hs'
      simp [circuitStateOfCount, show parseIntJS "" = none from by decide]
    · rw [Bool.not_eq_true] at hs
      cases hp : parseIntJS s with
      | none => simp [circuitStateOfCount, hs, hp]
      | some n =>
        by_cases hle : t ≤ n
        · simp [circuitStateOfCount, hs, hp, hle]
        · simp [circuitStateOfCount, hs, hp, hle]

/-- Claim C10 witness: instantiated at the string `17` and threshold 3. -/
theorem claim_C10_witness :
    (0 : Int) < 3
    ∧ (circuitStateOfCount (some "") 3 = CircuitBreakerState.CLOSED
      ∧ circuitStateOfCount (some "0") 3 = CircuitBreakerState.CLOSED
      ∧ (parseIntJS "17" = none →
          circuitStateOfCount (some "17") 3 = CircuitBreakerState.CLOSED)
      ∧ (circuitStateOfCount (some "17") 3 = CircuitBreakerState.OPEN
          ↔ ∃ n, parseIntJS "17" = some n ∧ 3 ≤ n)) :=
  ⟨by decide, claim_C10_total_state "17" 3 (by decide)⟩

end CircuitBreaker
